import Mathlib

/-!
Verification of the diagnostic core of the Acura TSX P0420 OBD-II scripts.

The development shallowly embeds the decision logic of the five Python
scripts: fuel-trim classification (po420_honda_spec.py,
analyze_p0420_without_o2), O2-sensor voltage classification
(po4220V2.py, read_o2_sensors), the per-command query loops
(elm327_tsx_reader.py read_live_data, po4220V2.py read_o2_sensors),
DTC clearing (elm327_tsx_reader.py clear_dtcs), catalog search
(print_codes.py search_commands), the error reporting of
test_vin.py test_elm327_info, and the spec's redesign primitives
queryFirstSupported, resolveVin and the percent decoder, which are not
functions of the repository's files.

Numeric sensor values (percent, volts) are modelled as rationals; the
thresholds compared against are exact decimal literals, so every branch
condition of the Python code is mirrored exactly.
-/

/-- Verdict of the fuel-trim rule.  Normal, Elevated and High are the
spec's names for the three printed verdicts "Excellent", "Acceptable"
and "Poor" of analyze_p0420_without_o2; Unknown is the guarded path
taken when either trim value is absent (the classification block is
skipped, nothing raises). -/
inductive FuelTrimStatus where
  | Normal
  | Elevated
  | High
  | Unknown
deriving DecidableEq

/-- Embeds src/po420_honda_spec.py, analyze_p0420_without_o2, lines
181-189: with both trims present the code forms
total_trim = abs(stft.value) + abs(ltft.value) and prints the
"Excellent" verdict when total_trim < 10, the "Acceptable" verdict when
total_trim < 20, and the "Poor" verdict otherwise; when either value is
None the guard on line 181 skips the classification (no verdict, no
exception), embedded as Unknown. -/
def classifyFuelTrim : Option ℚ → Option ℚ → FuelTrimStatus
  | some s, some l =>
    if |s| + |l| < 10 then FuelTrimStatus.Normal
    else if |s| + |l| < 20 then FuelTrimStatus.Elevated
    else FuelTrimStatus.High
  | _, _ => FuelTrimStatus.Unknown

/-- Sensor position, decided in src/po4220V2.py read_o2_sensors line 56
by the substring test ("Upstream" in description or "Pre-Cat" in
description); every entry of the o2_commands table carries one of the
two positions in its description. -/
inductive O2Position where
  | Upstream
  | Downstream
deriving DecidableEq

/-- The qualitative O2 analyses printed by read_o2_sensors. -/
inductive O2Behavior where
  | LeanSuspect
  | RichSuspect
  | NormalSwitching
  | CatalystLikelyOk
  | CatalystLikelyFailing
deriving DecidableEq

/-- Embeds src/po4220V2.py, read_o2_sensors, lines 56-67: for an
upstream sensor, voltage < 0.1 prints the "Very lean" analysis,
voltage > 0.9 the "Very rich" analysis, anything else the "Normal
switching range" analysis; for a downstream sensor, voltage < 0.6
prints the "Cat working" analysis and anything else the "High voltage
suggests cat inefficiency" analysis.  All comparisons are strict, as in
the Python source. -/
def classifyO2Sensor (pos : O2Position) (voltage : ℚ) : O2Behavior :=
  match pos with
  | O2Position.Upstream =>
    if voltage < 0.1 then O2Behavior.LeanSuspect
    else if voltage > 0.9 then O2Behavior.RichSuspect
    else O2Behavior.NormalSwitching
  | O2Position.Downstream =>
    if voltage < 0.6 then O2Behavior.CatalystLikelyOk
    else O2Behavior.CatalystLikelyFailing

/-- Per-sensor report of read_o2_sensors (src/po4220V2.py lines 51-69):
a present voltage is analyzed, an absent one prints "Not available". -/
inductive O2Report where
  | analyzed (b : O2Behavior)
  | notAvailable
deriving DecidableEq

/-- Embeds the value handling of read_o2_sensors lines 51-69: the
response value is classified when present and reported "Not available"
when absent; neither path raises. -/
def o2SensorReport (pos : O2Position) (value : Option ℚ) : O2Report :=
  match value with
  | some v => O2Report.analyzed (classifyO2Sensor pos v)
  | none => O2Report.notAvailable

/-- C1: for every pair of present short-term and long-term fuel-trim
percentages, classifyFuelTrim returns Normal when the sum of absolute
trims is below 10, Elevated when it is at least 10 and below 20, and
High otherwise. -/
theorem C1_classifyFuelTrim (s l : ℚ) :
    (|s| + |l| < 10 → classifyFuelTrim (some s) (some l) = FuelTrimStatus.Normal) ∧
    (10 ≤ |s| + |l| → |s| + |l| < 20 →
      classifyFuelTrim (some s) (some l) = FuelTrimStatus.Elevated) ∧
    (20 ≤ |s| + |l| → classifyFuelTrim (some s) (some l) = FuelTrimStatus.High) := by
  refine ⟨fun h => ?_, fun h1 h2 => ?_, fun h => ?_⟩ <;> simp only [classifyFuelTrim]
  · rw [if_pos h]
  · rw [if_neg (not_lt.mpr h1), if_pos h2]
  · have h10 : (10 : ℚ) ≤ |s| + |l| := by linarith
    rw [if_neg (not_lt.mpr h10), if_neg (not_lt.mpr h)]

/-- C2 counterexample: at exactly 0.6 volts the downstream
classification of read_o2_sensors is CatalystLikelyFailing, not the
"ok" side the claim asserts for that boundary value (the comparison on
line 64 is the strict voltage < 0.6). -/
theorem C2_boundary_counterexample :
    classifyO2Sensor O2Position.Downstream 0.6 = O2Behavior.CatalystLikelyFailing ∧
    classifyO2Sensor O2Position.Downstream 0.6 ≠ O2Behavior.CatalystLikelyOk := by
  have h1 : classifyO2Sensor O2Position.Downstream 0.6 = O2Behavior.CatalystLikelyFailing := by
    norm_num [classifyO2Sensor]
  exact ⟨h1, by rw [h1]; decide⟩

/-- C2 (amended): upstream classification is LeanSuspect exactly below
0.1 V, RichSuspect exactly above 0.9 V and NormalSwitching in between
(both boundaries included); downstream classification is
CatalystLikelyOk exactly below 0.6 V and CatalystLikelyFailing from
0.6 V on, so the boundaries 0.1 and 0.9 resolve to the normal side
while 0.6 resolves to the failing side. -/
theorem C2_classifyO2Sensor (v : ℚ) :
    (classifyO2Sensor O2Position.Upstream v = O2Behavior.LeanSuspect ↔ v < 0.1) ∧
    (classifyO2Sensor O2Position.Upstream v = O2Behavior.RichSuspect ↔ 0.9 < v) ∧
    (classifyO2Sensor O2Position.Upstream v = O2Behavior.NormalSwitching ↔
      0.1 ≤ v ∧ v ≤ 0.9) ∧
    (classifyO2Sensor O2Position.Downstream v = O2Behavior.CatalystLikelyOk ↔ v < 0.6) ∧
    (classifyO2Sensor O2Position.Downstream v = O2Behavior.CatalystLikelyFailing ↔
      0.6 ≤ v) ∧
    classifyO2Sensor O2Position.Upstream 0.1 = O2Behavior.NormalSwitching ∧
    classifyO2Sensor O2Position.Upstream 0.9 = O2Behavior.NormalSwitching ∧
    classifyO2Sensor O2Position.Downstream 0.6 = O2Behavior.CatalystLikelyFailing := by
  have hvU : classifyO2Sensor O2Position.Upstream v =
      (if v < 0.1 then O2Behavior.LeanSuspect
        else if v > 0.9 then O2Behavior.RichSuspect
        else O2Behavior.NormalSwitching) := rfl
  have hvD : classifyO2Sensor O2Position.Downstream v =
      (if v < 0.6 then O2Behavior.CatalystLikelyOk
        else O2Behavior.CatalystLikelyFailing) := rfl
  refine ⟨?_, ?_, ?_, ?_, ?_, by norm_num [classifyO2Sensor],
    by norm_num [classifyO2Sensor], by norm_num [classifyO2Sensor]⟩
  · rw [hvU]; split_ifs with g1 g2
    · exact iff_of_true rfl g1
    · exact iff_of_false (by decide) g1
    · exact iff_of_false (by decide) g1
  · rw [hvU]; split_ifs with g1 g2
    · exact iff_of_false (by decide) (by intro h; linarith)
    · exact iff_of_true rfl g2
    · exact iff_of_false (by decide) g2
  · rw [hvU]; split_ifs with g1 g2
    · exact iff_of_false (by decide) (by rintro ⟨h1, _⟩; linarith)
    · exact iff_of_false (by decide) (by rintro ⟨_, h2⟩; linarith)
    · exact iff_of_true rfl ⟨not_lt.mp g1, not_lt.mp g2⟩
  · rw [hvD]; split_ifs with g1
    · exact iff_of_true rfl g1
    · exact iff_of_false (by decide) g1
  · rw [hvD]; split_ifs with g1
    · exact iff_of_false (by decide) (not_le.mpr g1)
    · exact iff_of_true rfl (not_lt.mp g1)

/-- C7: the rule-engine classifiers are total on absent inputs: an
absent trim value yields the Unknown verdict (the guard at
po420_honda_spec.py line 181 skips classification) and an absent O2
voltage yields the notAvailable report (po4220V2.py line 69); in
particular classifyFuelTrim with an absent short trim and -3 long trim
is Unknown. -/
theorem C7_classifiers_total_on_absent :
    (∀ l, classifyFuelTrim none l = FuelTrimStatus.Unknown) ∧
    (∀ s, classifyFuelTrim s none = FuelTrimStatus.Unknown) ∧
    (∀ pos, o2SensorReport pos none = O2Report.notAvailable) ∧
    classifyFuelTrim none (some (-3)) = FuelTrimStatus.Unknown := by
  refine ⟨fun l => ?_, fun s => ?_, fun pos => rfl, rfl⟩
  · cases l <;> rfl
  · cases s <;> rfl

/-- Uniform query outcome of the spec's Query Executor (section 4.3):
Ok(value), Unsupported, NoData or TransportError(detail). -/
inductive QueryResult (α : Type) where
  | Ok (value : α)
  | Unsupported
  | NoData
  | TransportError (detail : String)
deriving DecidableEq

/-- Modelled from the spec: queryFirstSupported (section 4.3) is a
redesign primitive with no function of its own under src/ (the scripts
inline the fallback pattern: src/test_vin.py main lines 178-186 stops
after the first successful VIN probe, src/po420_honda_spec.py
test_all_o2_sensor_pids lines 39-76 walks candidate PID lists).  It
tries each candidate command in the given order, stopping at the first
result that is not Unsupported; if all are Unsupported it returns
Unsupported.  The connection is a function from command to result, one
query per candidate tried. -/
def queryFirstSupported {Cmd α : Type} (conn : Cmd → QueryResult α) :
    List Cmd → QueryResult α
  | [] => QueryResult.Unsupported
  | c :: cs =>
    match conn c with
    | QueryResult.Ok v => QueryResult.Ok v
    | QueryResult.NoData => QueryResult.NoData
    | QueryResult.TransportError d => QueryResult.TransportError d
    | QueryResult.Unsupported => queryFirstSupported conn cs

/-- Transmission trace of queryFirstSupported: the candidates actually
queried, in order.  A candidate after the first non-Unsupported result
is never queried. -/
def queryFirstSupportedTrace {Cmd α : Type} (conn : Cmd → QueryResult α) :
    List Cmd → List Cmd
  | [] => []
  | c :: cs =>
    match conn c with
    | QueryResult.Unsupported => c :: queryFirstSupportedTrace conn cs
    | _ => [c]

/-- Connection of the spec's own example (section 8): candidate A
(numbered 0) is Unsupported, B (numbered 1) answers Ok 5, C (numbered
2) answers Ok 9. -/
def exampleConn : Nat → QueryResult Nat :=
  fun n => if n = 0 then QueryResult.Unsupported
    else if n = 1 then QueryResult.Ok 5 else QueryResult.Ok 9

theorem qfs_cons_unsupported {Cmd α : Type} (conn : Cmd → QueryResult α)
    (c : Cmd) (cs : List Cmd) (h : conn c = QueryResult.Unsupported) :
    queryFirstSupported conn (c :: cs) = queryFirstSupported conn cs ∧
    queryFirstSupportedTrace conn (c :: cs) = c :: queryFirstSupportedTrace conn cs := by
  constructor <;> simp only [queryFirstSupported, queryFirstSupportedTrace, h]

theorem qfs_cons_supported {Cmd α : Type} (conn : Cmd → QueryResult α)
    (c : Cmd) (cs : List Cmd) (h : conn c ≠ QueryResult.Unsupported) :
    queryFirstSupported conn (c :: cs) = conn c ∧
    queryFirstSupportedTrace conn (c :: cs) = [c] := by
  cases hc : conn c with
  | Unsupported => exact absurd hc h
  | Ok v =>
    exact ⟨by simp [queryFirstSupported, hc], by simp [queryFirstSupportedTrace, hc]⟩
  | NoData =>
    exact ⟨by simp [queryFirstSupported, hc], by simp [queryFirstSupportedTrace, hc]⟩
  | TransportError d =>
    exact ⟨by simp [queryFirstSupported, hc], by simp [queryFirstSupportedTrace, hc]⟩

/-- C3: queryFirstSupported queries the candidates in the given order
and returns the result of the first candidate whose result is not
Unsupported, issuing no transmission for any later candidate (the trace
ends at that candidate); if every candidate yields Unsupported it
returns Unsupported after querying them all.  The last conjunct is the
spec's section 8 example: candidates [A(Unsupported), B(Ok 5), C(Ok 9)]
return Ok 5 and C is never transmitted. -/
theorem C3_queryFirstSupported {Cmd α : Type} (conn : Cmd → QueryResult α) :
    (∀ pre c post, (∀ d ∈ pre, conn d = QueryResult.Unsupported) →
      conn c ≠ QueryResult.Unsupported →
      queryFirstSupported conn (pre ++ c :: post) = conn c ∧
      queryFirstSupportedTrace conn (pre ++ c :: post) = pre ++ [c]) ∧
    (∀ cs, (∀ d ∈ cs, conn d = QueryResult.Unsupported) →
      queryFirstSupported conn cs = QueryResult.Unsupported ∧
      queryFirstSupportedTrace conn cs = cs) ∧
    (queryFirstSupported exampleConn [0, 1, 2] = QueryResult.Ok 5 ∧
      queryFirstSupportedTrace exampleConn [0, 1, 2] = [0, 1]) := by
  refine ⟨?_, ?_, by decide⟩
  · intro pre c post hpre hc
    induction pre with
    | nil => simpa using qfs_cons_supported conn c post hc
    | cons d ds ih =>
      have hd : conn d = QueryResult.Unsupported := hpre d (by simp)
      have ihd := ih (fun e he => hpre e (by simp [he]))
      have step := qfs_cons_unsupported conn d (ds ++ c :: post) hd
      constructor
      · rw [List.cons_append, step.1, ihd.1]
      · rw [List.cons_append, step.2, ihd.2, List.cons_append]
  · intro cs hcs
    induction cs with
    | nil => exact ⟨rfl, rfl⟩
    | cons d ds ih =>
      have hd : conn d = QueryResult.Unsupported := hcs d (by simp)
      have ihd := ih (fun e he => hcs e (by simp [he]))
      have step := qfs_cons_unsupported conn d ds hd
      exact ⟨step.1.trans ihd.1, by rw [step.2, ihd.2]⟩

/-- Outcome of the VIN-discovery fallback chain (spec section 3). -/
inductive VinDiscoveryOutcome where
  | Found (vin : String)
  | NotSupported
  | NoResponse
deriving DecidableEq

/-- The three probes of the VIN fallback chain, in the order the spec's
section 4.4 lists them and src/test_vin.py main issues them:
the canonical VIN command (test_vin_command), the raw Mode-09 PID-02
request (the "0902" entry of test_raw_vin_commands), and the Mode-09
supported-PID bitmask (the "0900" query of test_supported_pids). -/
inductive VinProbe where
  | canonical
  | rawPid02
  | bitmask
deriving DecidableEq

/-- What the vehicle answers to each of the three probes: the VIN
string (or nothing) for the two VIN requests, and the decoded set of
supported Mode-09 PIDs (or nothing) for the bitmask query. -/
structure VinConnection where
  canonicalVin : Option String
  rawPid02 : Option String
  mode09Pids : Option (List Nat)
deriving DecidableEq

/-- Modelled from the spec: resolveVin (section 4.4) is a redesign
primitive with no function of its own under src/; src/test_vin.py main
(lines 178-186) chains the same probes and test_supported_pids (lines
114-125) performs the bit-2 membership check (2 in pids_09.value).  The
probes are tried in the order section 4.4 lists them, matching the
code: canonical VIN first, then the raw Mode-09 PID-02 request, and the
bitmask check only after both VIN probes fail.  A first success wins;
with both VIN probes exhausted, a bitmask without PID 2 yields
NotSupported and anything else yields NoResponse. -/
def resolveVin (conn : VinConnection) : VinDiscoveryOutcome :=
  match conn.canonicalVin with
  | some v => VinDiscoveryOutcome.Found v
  | none =>
    match conn.rawPid02 with
    | some v => VinDiscoveryOutcome.Found v
    | none =>
      match conn.mode09Pids with
      | some pids =>
        if 2 ∈ pids then VinDiscoveryOutcome.NoResponse
        else VinDiscoveryOutcome.NotSupported
      | none => VinDiscoveryOutcome.NoResponse

/-- Probe trace of resolveVin: which probes are issued, in order.  A
probe after the first successful one is never issued. -/
def resolveVinTrace (conn : VinConnection) : List VinProbe :=
  match conn.canonicalVin with
  | some _ => [VinProbe.canonical]
  | none =>
    match conn.rawPid02 with
    | some _ => [VinProbe.canonical, VinProbe.rawPid02]
    | none => [VinProbe.canonical, VinProbe.rawPid02, VinProbe.bitmask]

/-- C4 counterexample: on a connection where both VIN probes fail and
the Mode-09 bitmask has bit 2 clear (pids = []), the outcome is indeed
NotSupported, yet the raw PID-02 request is in the probe trace: the
bitmask check comes after the raw PID-02 request (third probe in the
spec's own ordering and in test_vin.py main), so it cannot prevent that
request, contradicting the claim's "without attempting the raw PID-02
request". -/
theorem C4_counterexample :
    resolveVin { canonicalVin := none, rawPid02 := none, mode09Pids := some [] } =
      VinDiscoveryOutcome.NotSupported ∧
    VinProbe.rawPid02 ∈ resolveVinTrace
      { canonicalVin := none, rawPid02 := none, mode09Pids := some [] } := by
  exact ⟨rfl, by decide⟩

/-- C4 (amended): resolveVin probes in the order canonical VIN command,
raw Mode-09 PID-02 request, Mode-09 supported-PID bitmask; the first
success yields Found(vin) and stops all later probes; the bitmask is
only consulted after both VIN probes have failed (so the raw PID-02
request has already been attempted by then), and bit 2 clear then
yields NotSupported with no further probing; exhausting all probes
yields NoResponse. -/
theorem C4_resolveVin (conn : VinConnection) :
    (∀ v, conn.canonicalVin = some v →
      resolveVin conn = VinDiscoveryOutcome.Found v ∧
      resolveVinTrace conn = [VinProbe.canonical]) ∧
    (∀ v, conn.canonicalVin = none → conn.rawPid02 = some v →
      resolveVin conn = VinDiscoveryOutcome.Found v ∧
      resolveVinTrace conn = [VinProbe.canonical, VinProbe.rawPid02]) ∧
    (∀ pids, conn.canonicalVin = none → conn.rawPid02 = none →
      conn.mode09Pids = some pids →
      resolveVinTrace conn = [VinProbe.canonical, VinProbe.rawPid02, VinProbe.bitmask] ∧
      (2 ∉ pids → resolveVin conn = VinDiscoveryOutcome.NotSupported) ∧
      (2 ∈ pids → resolveVin conn = VinDiscoveryOutcome.NoResponse)) ∧
    (conn.canonicalVin = none → conn.rawPid02 = none → conn.mode09Pids = none →
      resolveVin conn = VinDiscoveryOutcome.NoResponse ∧
      resolveVinTrace conn = [VinProbe.canonical, VinProbe.rawPid02, VinProbe.bitmask]) := by
  refine ⟨fun v h1 => ?_, fun v h1 h2 => ?_, fun pids h1 h2 h3 => ?_, fun h1 h2 h3 => ?_⟩
  · exact ⟨by simp [resolveVin, h1], by simp [resolveVinTrace, h1]⟩
  · exact ⟨by simp [resolveVin, h1, h2], by simp [resolveVinTrace, h1, h2]⟩
  · refine ⟨by simp [resolveVinTrace, h1, h2], fun hout => ?_, fun hin => ?_⟩
    · simp [resolveVin, h1, h2, h3, hout]
    · simp [resolveVin, h1, h2, h3, hin]
  · exact ⟨by simp [resolveVin, h1, h2, h3], by simp [resolveVinTrace, h1, h2]⟩

/-- Modelled from the spec: the percent decoder is obd.decoders.percent
of the python-OBD library, not a function of the repository's files
(src/po420_honda_spec.py lines 62-66 only pass it to OBDCommand).
Section 4.1 fixes the single-byte convention value*100/255; a payload
whose length does not match the expected single byte is a DecodeError,
embedded as none.  Bytes are Fin 256, the decoded percentage a
rational. -/
def decodePercent (payload : List (Fin 256)) : Option ℚ :=
  match payload with
  | [b] => some ((b.val : ℚ) * 100 / 255)
  | _ => none

/-- C5: for every byte b the one-byte payload [b] decodes to exactly
b*100/255 (exact in the rationals, hence within any floating
tolerance), re-invoking the decoder on the identical input yields the
identical result (the embedding is a pure function), and the decoded
value always lies in the 0-100 percent range. -/
theorem C5_decodePercent (b : Fin 256) :
    decodePercent [b] = some ((b.val : ℚ) * 100 / 255) ∧
    decodePercent [b] = decodePercent [b] ∧
    (∀ q, decodePercent [b] = some q → 0 ≤ q ∧ q ≤ 100) := by
  refine ⟨rfl, rfl, fun q hq => ?_⟩
  have hq2 : q = (b.val : ℚ) * 100 / 255 := by
    simpa [decodePercent] using hq.symm
  have hb : (b.val : ℚ) ≤ 255 := by
    exact_mod_cast Nat.lt_succ_iff.mp b.isLt
  have hb0 : (0 : ℚ) ≤ (b.val : ℚ) := by positivity
  constructor
  · rw [hq2]; positivity
  · rw [hq2, div_le_iff₀ (by norm_num : (0 : ℚ) < 255)]; linarith

/-- Character-list prefix test, mirroring how Python string containment
starts matching at a position. -/
def isPrefixOfChars : List Char → List Char → Bool
  | [], _ => true
  | _ :: _, [] => false
  | a :: as, b :: bs => a == b && isPrefixOfChars as bs

/-- Substring containment on character lists: Python's "needle in
haystack". -/
def containsSub (needle : List Char) : List Char → Bool
  | [] => isPrefixOfChars needle []
  | b :: bs => isPrefixOfChars needle (b :: bs) || containsSub needle bs

/-- Python str.upper restricted to the ASCII command names and
descriptions of the catalog. -/
def upperChars (s : List Char) : List Char := s.map Char.toUpper

/-- An entry of the command catalog: the attribute name (identity) and
the human description, the two fields search_commands matches against
(hasattr(attr_value, 'name') and hasattr(attr_value, 'desc'),
src/print_codes.py lines 82-83). -/
structure Command where
  name : List Char
  desc : List Char
deriving DecidableEq

/-- Embeds the match test of src/print_codes.py search_commands lines
84-85: search_term.upper() in attr_name.upper() or
search_term.upper() in attr_value.desc.upper(). -/
def matchesTerm (term : List Char) (c : Command) : Bool :=
  containsSub (upperChars term) (upperChars c.name) ||
    containsSub (upperChars term) (upperChars c.desc)

/-- Embeds src/print_codes.py search_commands lines 74-90: the catalog
(the command-bearing attributes of obd.commands, in the alphabetical
order dir() returns) is walked in order and every entry matching the
term is printed; no match prints the "No commands found" notice and
nothing else — an empty result, not an error. -/
def searchCommands (catalog : List Command) (term : List Char) : List Command :=
  catalog.filter (fun c => matchesTerm term c)

/-- Ordering of Python's sorted dir(): code-point lexicographic
comparison of the attribute names. -/
def lexLeChars : List Char → List Char → Bool
  | [], _ => true
  | _ :: _, [] => false
  | a :: as, b :: bs => a < b || (a == b && lexLeChars as bs)

/-- C6: on a catalog listed in alphabetical order of identity (as
dir(obd.commands) yields it), searchCommands returns exactly the
commands whose identity or description contains the term
case-insensitively, keeps the alphabetical order, and returns the empty
sequence, not an error, when nothing matches. -/
theorem C6_searchCommands (catalog : List Command) (term : List Char)
    (hsorted : catalog.Pairwise (fun a b => lexLeChars a.name b.name = true)) :
    (∀ c, c ∈ searchCommands catalog term ↔ c ∈ catalog ∧ matchesTerm term c = true) ∧
    (searchCommands catalog term).Pairwise (fun a b => lexLeChars a.name b.name = true) ∧
    ((∀ c ∈ catalog, matchesTerm term c = false) → searchCommands catalog term = []) := by
  refine ⟨fun c => ?_, ?_, fun hnone => ?_⟩
  · simp [searchCommands, List.mem_filter]
  · exact hsorted.filter (fun c => matchesTerm term c)
  · rw [searchCommands, List.filter_eq_nil_iff]
    intro c hc
    simp [hnone c hc]

/-- Concrete sorted two-entry catalog for the C6 witness, in the shape
print_codes.py discovers: identities alphabetical, descriptions free
text. -/
def catalogEx : List Command :=
  [{ name := String.toList "LONG_FUEL_TRIM_1",
     desc := String.toList "Long Term Fuel Trim - Bank 1" },
   { name := String.toList "RPM", desc := String.toList "Engine RPM" }]

/-- C6 witness: the theorem instantiated on the concrete catalog with
the lowercase search term "trim", the sortedness hypothesis discharged
by computation. -/
theorem C6_searchCommands_witness :
    (∀ c, c ∈ searchCommands catalogEx (String.toList "trim") ↔
      c ∈ catalogEx ∧ matchesTerm (String.toList "trim") c = true) ∧
    (searchCommands catalogEx (String.toList "trim")).Pairwise
      (fun a b => lexLeChars a.name b.name = true) ∧
    ((∀ c ∈ catalogEx, matchesTerm (String.toList "trim") c = false) →
      searchCommands catalogEx (String.toList "trim") = []) :=
  C6_searchCommands catalogEx (String.toList "trim") (by decide)

/-- Outcome of one connection.query call as the scripts see it: a
response whose .value is present or absent, or a raised exception with
its message. -/
inductive QueryOutcome (α : Type) where
  | value (v : Option α)
  | raises (e : String)
deriving DecidableEq

/-- Console lines test_elm327_info can produce (src/test_vin.py lines
70-99): the protocol block prints the protocol when the value is
truthy, prints nothing on a falsy value, and its bare except prints the
fixed "Could not determine current protocol" line; the info-command
loop prints the value, "Not available", or "Error - {e}" with the
caught exception interpolated. -/
inductive ReportLine where
  | protocolValue (v : String)
  | couldNotDetermine
  | infoValue (desc v : String)
  | infoNotAvailable (desc : String)
  | infoError (desc e : String)
deriving DecidableEq

/-- Embeds the protocol block of test_elm327_info (src/test_vin.py
lines 83-89): try the ATDP query; a truthy value is printed, a falsy
one prints nothing, and any exception is caught by the bare except and
reduced to the fixed line, the exception object unused. -/
def protocolReport (out : QueryOutcome String) : List ReportLine :=
  match out with
  | QueryOutcome.value (some v) => [ReportLine.protocolValue v]
  | QueryOutcome.value none => []
  | QueryOutcome.raises _ => [ReportLine.couldNotDetermine]

/-- Embeds the per-command body of the info loop of test_elm327_info
(src/test_vin.py lines 91-99) — the same shape as the per-PID handlers
of po420_honda_spec.py lines 44-51: value printed, absence reported,
and an exception caught and printed with its message. -/
def infoReport (desc : String) (out : QueryOutcome String) : List ReportLine :=
  match out with
  | QueryOutcome.value (some v) => [ReportLine.infoValue desc v]
  | QueryOutcome.value none => [ReportLine.infoNotAvailable desc]
  | QueryOutcome.raises e => [ReportLine.infoError desc e]

/-- C8 counterexample: two different transport errors raised by the
protocol query of test_elm327_info produce the identical fixed report,
so the failure "timeout" is discarded with no representation of the
error in the result — the bare except on src/test_vin.py line 88 keeps
nothing of the exception. -/
theorem C8_counterexample :
    protocolReport (QueryOutcome.raises "timeout") =
      protocolReport (QueryOutcome.raises "no response from adapter") ∧
    protocolReport (QueryOutcome.raises "timeout") = [ReportLine.couldNotDetermine] :=
  ⟨rfl, rfl⟩

/-- C8 (amended): a failure in the per-command info loop is converted
into a report line carrying the command description and the error
detail, but a failure of the protocol probe is reduced by the bare
except to the fixed "could not determine" line carrying no
representation of the error; either way the failure becomes console
report lines, not a typed result returned to the caller. -/
theorem C8_error_reporting (desc e : String) :
    infoReport desc (QueryOutcome.raises e) = [ReportLine.infoError desc e] ∧
    protocolReport (QueryOutcome.raises e) = [ReportLine.couldNotDetermine] :=
  ⟨rfl, rfl⟩

/-- Console line of one read_live_data iteration (src/elm327_tsx_reader.py
lines 93-101): the value, "Not available", or the caught error. -/
inductive LiveReport (α : Type) where
  | value (v : α)
  | notAvailable
  | errorLine (e : String)
deriving DecidableEq

/-- Embeds the loop of read_live_data (src/elm327_tsx_reader.py lines
93-101): each iteration issues connection.query(cmd) — recorded in the
first component, the transmission trace — and the try/except around the
body turns any raised exception into a printed error line, after which
the loop continues with the next command.  No outcome breaks the
loop. -/
def readLiveData {Cmd α : Type} (env : Cmd → QueryOutcome α) :
    List Cmd → List Cmd × List (LiveReport α)
  | [] => ([], [])
  | c :: cs =>
    (c :: (readLiveData env cs).1,
      (match env c with
        | QueryOutcome.value (some v) => LiveReport.value v
        | QueryOutcome.value none => LiveReport.notAvailable
        | QueryOutcome.raises e => LiveReport.errorLine e) :: (readLiveData env cs).2)

/-- Console line of one read_o2_sensors iteration (src/po4220V2.py
lines 48-72): the analyzed report or the caught error. -/
inductive O2Line where
  | report (r : O2Report)
  | errorLine (e : String)
deriving DecidableEq

/-- Embeds the loop of read_o2_sensors (src/po4220V2.py lines 48-72):
each (command, position) pair is queried once — the trace is the first
component — and the per-iteration try/except turns a raised exception
into an error line and continues. -/
def readO2Pass {Cmd : Type} (env : Cmd → QueryOutcome ℚ) :
    List (Cmd × O2Position) → List Cmd × List O2Line
  | [] => ([], [])
  | (c, pos) :: rest =>
    (c :: (readO2Pass env rest).1,
      (match env c with
        | QueryOutcome.value v => O2Line.report (o2SensorReport pos v)
        | QueryOutcome.raises e => O2Line.errorLine e) :: (readO2Pass env rest).2)

/-- C9: within one pass of read_live_data or read_o2_sensors, every
command of the list is queried exactly once, in list order, whatever
each query's outcome (value, absence or raised exception) — a failure
at one command never prevents the remaining queries, and each pass
emits one report line per command. -/
theorem C9_every_command_attempted {Cmd Cmd2 α : Type}
    (env : Cmd → QueryOutcome α) (cmds : List Cmd)
    (env2 : Cmd2 → QueryOutcome ℚ) (sensors : List (Cmd2 × O2Position)) :
    (readLiveData env cmds).1 = cmds ∧
    (readLiveData env cmds).2.length = cmds.length ∧
    (readO2Pass env2 sensors).1 = sensors.map Prod.fst ∧
    (readO2Pass env2 sensors).2.length = sensors.length := by
  refine ⟨?_, ?_, ?_, ?_⟩
  · induction cmds with
    | nil => rfl
    | cons c cs ih => simp only [readLiveData, ih]
  · induction cmds with
    | nil => rfl
    | cons c cs ih => simp only [readLiveData, List.length_cons, ih]
  · induction sensors with
    | nil => rfl
    | cons p rest ih =>
      obtain ⟨c, pos⟩ := p
      simp only [readO2Pass, List.map_cons, ih]
  · induction sensors with
    | nil => rfl
    | cons p rest ih =>
      obtain ⟨c, pos⟩ := p
      simp only [readO2Pass, List.length_cons, ih]

/-- Python str.lower restricted to the ASCII confirmation input of
clear_dtcs. -/
def pyLower (s : List Char) : List Char := s.map Char.toLower

/-- Embeds clear_dtcs (src/elm327_tsx_reader.py lines 103-118): the
queries the function transmits as a function of the confirmation input.
Only when response.lower() == 'y' does it query
obd.commands.CLEAR_DTC; every other input prints "DTC clearing
cancelled" and queries nothing. -/
def clearDtcsQueries (confirm : List Char) : List String :=
  if pyLower confirm = ['y'] then ["CLEAR_DTC"] else []

/-- Vehicle-side semantics of one transmitted command on the stored
trouble codes: CLEAR_DTC (OBD Mode 04) erases them, any other command
reads without writing.  This models the external vehicle collaborator,
which the scripts only reach through connection.query. -/
def applyQuery {α : Type} (stored : List α) (q : String) : List α :=
  if q = "CLEAR_DTC" then [] else stored

/-- The stored trouble codes after a sequence of transmitted
queries. -/
def runQueries {α : Type} (stored : List α) (qs : List String) : List α :=
  qs.foldl applyQuery stored

/-- C10: clear_dtcs transmits CLEAR_DTC exactly when the confirmation
input, lowercased, equals "y"; for every other input it issues no query
at all, so the stored trouble codes are left unchanged. -/
theorem C10_clearDtcs {α : Type} (confirm : List Char) (stored : List α) :
    ("CLEAR_DTC" ∈ clearDtcsQueries confirm ↔ pyLower confirm = ['y']) ∧
    (pyLower confirm ≠ ['y'] →
      clearDtcsQueries confirm = [] ∧
      runQueries stored (clearDtcsQueries confirm) = stored) := by
  by_cases h : pyLower confirm = ['y'] <;>
    simp [clearDtcsQueries, h, runQueries, applyQuery]
